import Mathlib

/-!
Verification of the fitness-tracker module `homework.py`.

The module is a pure computation over numeric sensor readings: three
workout variants (Running, SportsWalking, Swimming) derived from a base
class Training, a dispatcher `read_package` keyed on a workout-type code,
and a summary formatter `InfoMessage.get_message` that renders every
derived quantity to three decimal places.

Numbers are embedded as rationals.  Every constant of the source
(0.65, 1.38, 0.035, 0.029, 1.1, 18, 20, 2, 1000, 60) is an exact decimal,
and on all the concrete inputs considered below the binary-float rounding
error of the reference implementation is far below the 3-decimal
formatting granularity, so the rational model reproduces the reference
output strings exactly.  Python floor division `//` on numbers is the
floor (truncation toward negative infinity) of the true quotient,
embedded via `Int.floor`.  The base-class calorie method raises
`NotImplementedError`, embedded as an `Except` error value.  The Python
`'.3f'` format specifier is embedded as rounding the value times 1000 to
the nearest integer (no rounding ties arise at any value considered
here, so the tie-breaking direction is immaterial).
-/

namespace Fitness

/-- `Training.M_IN_KM` of the source: metres per kilometre. -/
def M_IN_KM : ℚ := 1000

/-- `Training.MIN_IN_HOUR` of the source: minutes per hour. -/
def MIN_IN_HOUR : ℚ := 60

/-- Python floor division `a // b` on numbers: the floor (truncation toward
negative infinity) of the exact quotient. -/
def floordiv (a b : ℚ) : ℚ := (Int.floor (a / b) : ℚ)

/-- Left-pads a fractional part with zeroes to three digits, for the
`'.3f'` format specifier. -/
def pad3 (n : Nat) : String :=
  if n < 10 then "00" ++ toString n
  else if n < 100 then "0" ++ toString n
  else toString n

/-- Renders the integer `n` (a value premultiplied by 1000) with three
decimal places. -/
def format3Int (n : ℤ) : String :=
  (if n < 0 then "-" else "") ++ toString (n.natAbs / 1000) ++ "." ++
    pad3 (n.natAbs % 1000)

/-- The Python format `f'\x7bx:.3f\x7d'`: the value rendered with three
decimal places, rounding to the nearest thousandth. -/
def format3 (x : ℚ) : String := format3Int (round (x * 1000))

/-- Whether the character list starting here begins with `pat`. -/
def charsBegins : List Char → List Char → Bool
  | [], _ => true
  | _ :: _, [] => false
  | p :: ps, c :: cs => if p = c then charsBegins ps cs else false

/-- Whether some suffix of the character list begins with `pat`. -/
def charsContains (pat : List Char) : List Char → Bool
  | [] => pat.isEmpty
  | c :: rest =>
    if charsBegins pat (c :: rest) then true else charsContains pat rest

/-- Substring test: does `s` contain `pat` as a contiguous substring? -/
def strContains (s pat : String) : Bool := charsContains pat.data s.data

/-- Dataclass `InfoMessage`: the rendered-summary value object. -/
structure InfoMessage where
  training_type : String
  duration : ℚ
  distance : ℚ
  speed : ℚ
  calories : ℚ
  deriving DecidableEq

/-- `InfoMessage.get_message`: one line with the five fields, numbers
formatted to three decimal places (labels as in the source). -/
def InfoMessage.get_message (m : InfoMessage) : String :=
  "Тип тренировки: " ++ m.training_type ++ "; Длительность: " ++
    format3 m.duration ++ " ч.; Дистанция: " ++ format3 m.distance ++
    " км; Ср. скорость: " ++ format3 m.speed ++ " км/ч; Потрачено ккал: " ++
    format3 m.calories ++ "."

/-- Base class `Training`: fields `action`, `duration` (hours), `weight`
(kg). -/
structure Training where
  action : ℚ
  duration : ℚ
  weight : ℚ
  deriving DecidableEq

/-- `Training.LEN_STEP = 0.65` (metres per step). -/
def Training.LEN_STEP : ℚ := 0.65

/-- `Training.get_distance`: `action * LEN_STEP / M_IN_KM`. -/
def Training.get_distance (t : Training) : ℚ :=
  t.action * Training.LEN_STEP / M_IN_KM

/-- `Training.get_mean_speed`: `get_distance() / duration`. -/
def Training.get_mean_speed (t : Training) : ℚ :=
  t.get_distance / t.duration

/-- `Training.hours_to_minutes`: `MIN_IN_HOUR * duration`. -/
def Training.hours_to_minutes (t : Training) : ℚ :=
  MIN_IN_HOUR * t.duration

/-- The message of the `NotImplementedError` raised by the base class. -/
def notImplementedMsg : String := "NotImplementedError"

/-- `Training.get_spent_calories`: the base class raises
`NotImplementedError`; it never produces a number. -/
def Training.get_spent_calories (_ : Training) : Except String ℚ :=
  Except.error notImplementedMsg

/-- Subclass `Running` (code "RUN"): no extra fields. -/
structure Running extends Training where
  deriving DecidableEq

/-- `Running.K1 = 18`. -/
def Running.K1 : ℚ := 18

/-- `Running.K2 = 20`. -/
def Running.K2 : ℚ := 20

/-- `Running` inherits `get_distance` from `Training`. -/
def Running.get_distance (r : Running) : ℚ := r.toTraining.get_distance

/-- `Running` inherits `get_mean_speed` from `Training`. -/
def Running.get_mean_speed (r : Running) : ℚ := r.toTraining.get_mean_speed

/-- `Running` inherits `hours_to_minutes` from `Training`. -/
def Running.hours_to_minutes (r : Running) : ℚ := r.toTraining.hours_to_minutes

/-- `Running.get_spent_calories`:
`(K1 * get_mean_speed() - K2) * weight / M_IN_KM * hours_to_minutes()`. -/
def Running.get_spent_calories (r : Running) : ℚ :=
  (Running.K1 * r.get_mean_speed - Running.K2) * r.weight / M_IN_KM
    * r.hours_to_minutes

/-- Subclass `SportsWalking` (code "WLK"): extra field `height` (cm). -/
structure SportsWalking extends Training where
  height : ℚ
  deriving DecidableEq

/-- `SportsWalking.K1 = 0.035`. -/
def SportsWalking.K1 : ℚ := 0.035

/-- `SportsWalking.K2 = 0.029`. -/
def SportsWalking.K2 : ℚ := 0.029

/-- `SportsWalking` inherits `get_distance` from `Training`. -/
def SportsWalking.get_distance (t : SportsWalking) : ℚ :=
  t.toTraining.get_distance

/-- `SportsWalking` inherits `get_mean_speed` from `Training`. -/
def SportsWalking.get_mean_speed (t : SportsWalking) : ℚ :=
  t.toTraining.get_mean_speed

/-- `SportsWalking` inherits `hours_to_minutes` from `Training`. -/
def SportsWalking.hours_to_minutes (t : SportsWalking) : ℚ :=
  t.toTraining.hours_to_minutes

/-- `SportsWalking.get_spent_calories`, with the source's intermediate
variables: `var_2` is the Python floor division
`get_mean_speed()**2 // height`. -/
def SportsWalking.get_spent_calories (t : SportsWalking) : ℚ :=
  let var_1 := SportsWalking.K1 * t.weight
  let var_2 := floordiv (t.get_mean_speed ^ 2) t.height
  let var_3 := SportsWalking.K2 * t.weight
  let var_4 := t.hours_to_minutes
  (var_1 + var_2 * var_3) * var_4

/-- Subclass `Swimming` (code "SWM"): extra fields `length_pool` (m) and
`count_pool`. -/
structure Swimming extends Training where
  length_pool : ℚ
  count_pool : ℚ
  deriving DecidableEq

/-- `Swimming.LEN_STEP = 1.38` (metres per stroke). -/
def Swimming.LEN_STEP : ℚ := 1.38

/-- `Swimming.K1 = 1.1`. -/
def Swimming.K1 : ℚ := 1.1

/-- `Swimming.K2 = 2`. -/
def Swimming.K2 : ℚ := 2

/-- `Swimming` inherits the distance formula but, via dynamic dispatch on
`self.LEN_STEP`, uses its own stride constant 1.38. -/
def Swimming.get_distance (s : Swimming) : ℚ :=
  s.action * Swimming.LEN_STEP / M_IN_KM

/-- `Swimming.get_mean_speed` (override):
`length_pool * count_pool / M_IN_KM / duration`. -/
def Swimming.get_mean_speed (s : Swimming) : ℚ :=
  s.length_pool * s.count_pool / M_IN_KM / s.duration

/-- `Swimming` inherits `hours_to_minutes` from `Training`. -/
def Swimming.hours_to_minutes (s : Swimming) : ℚ := s.toTraining.hours_to_minutes

/-- `Swimming.get_spent_calories`:
`(get_mean_speed() + K1) * K2 * weight`. -/
def Swimming.get_spent_calories (s : Swimming) : ℚ :=
  (s.get_mean_speed + Swimming.K1) * Swimming.K2 * s.weight

/-- Display name of the `Running` class (its `type(self).__name__`). -/
def runningLabel : String := "Running"

/-- Display name of the `SportsWalking` class. -/
def sportsWalkingLabel : String := "SportsWalking"

/-- Display name of the `Swimming` class. -/
def swimmingLabel : String := "Swimming"

/-- `show_training_info` for a `Running` record. -/
def Running.show_training_info (r : Running) : InfoMessage :=
  ⟨runningLabel, r.duration, r.get_distance, r.get_mean_speed,
    r.get_spent_calories⟩

/-- `show_training_info` for a `SportsWalking` record. -/
def SportsWalking.show_training_info (t : SportsWalking) : InfoMessage :=
  ⟨sportsWalkingLabel, t.duration, t.get_distance, t.get_mean_speed,
    t.get_spent_calories⟩

/-- `show_training_info` for a `Swimming` record. -/
def Swimming.show_training_info (s : Swimming) : InfoMessage :=
  ⟨swimmingLabel, s.duration, s.get_distance, s.get_mean_speed,
    s.get_spent_calories⟩

/-- The three recognized workout-type codes. -/
def SWM : String := "SWM"

/-- Code of `Running`. -/
def RUN : String := "RUN"

/-- Code of `SportsWalking`. -/
def WLK : String := "WLK"

/-- An unrecognized code used as a test fixture. -/
def XYZ : String := "XYZ"

/-- A built workout record: one of the three concrete variants. -/
inductive TrainingRecord where
  | swm : Swimming → TrainingRecord
  | run : Running → TrainingRecord
  | wlk : SportsWalking → TrainingRecord
  deriving DecidableEq

/-- Failure modes of the dispatcher: an unrecognized code (a `KeyError`
on the source's dict lookup) or a wrong number of positional values (a
`TypeError` from the constructor call). -/
inductive BuildError where
  | unknownWorkoutCode : BuildError
  | arityMismatch : BuildError
  deriving DecidableEq

/-- `read_package`: dict dispatch on the workout-type code, then the
constructor of the selected class applied to the positional values. -/
def read_package (workout_type : String) (data : List ℚ) :
    Except BuildError TrainingRecord :=
  if workout_type = SWM then
    match data with
    | [a, d, w, lp, cp] => Except.ok (TrainingRecord.swm ⟨⟨a, d, w⟩, lp, cp⟩)
    | _ => Except.error BuildError.arityMismatch
  else if workout_type = RUN then
    match data with
    | [a, d, w] => Except.ok (TrainingRecord.run ⟨⟨a, d, w⟩⟩)
    | _ => Except.error BuildError.arityMismatch
  else if workout_type = WLK then
    match data with
    | [a, d, w, h] => Except.ok (TrainingRecord.wlk ⟨⟨a, d, w⟩, h⟩)
    | _ => Except.error BuildError.arityMismatch
  else
    Except.error BuildError.unknownWorkoutCode

/-- `action` of a built record. -/
def TrainingRecord.action : TrainingRecord → ℚ
  | TrainingRecord.swm s => s.action
  | TrainingRecord.run r => r.action
  | TrainingRecord.wlk w => w.action

/-- `get_distance` of a built record (dynamic dispatch). -/
def TrainingRecord.get_distance : TrainingRecord → ℚ
  | TrainingRecord.swm s => s.get_distance
  | TrainingRecord.run r => r.get_distance
  | TrainingRecord.wlk w => w.get_distance

/-- `get_mean_speed` of a built record (dynamic dispatch). -/
def TrainingRecord.get_mean_speed : TrainingRecord → ℚ
  | TrainingRecord.swm s => s.get_mean_speed
  | TrainingRecord.run r => r.get_mean_speed
  | TrainingRecord.wlk w => w.get_mean_speed

/-- `get_spent_calories` of a built record (dynamic dispatch). -/
def TrainingRecord.get_spent_calories : TrainingRecord → ℚ
  | TrainingRecord.swm s => s.get_spent_calories
  | TrainingRecord.run r => r.get_spent_calories
  | TrainingRecord.wlk w => w.get_spent_calories

/-- `show_training_info` of a built record (dynamic dispatch). -/
def TrainingRecord.show_training_info : TrainingRecord → InfoMessage
  | TrainingRecord.swm s => s.show_training_info
  | TrainingRecord.run r => r.show_training_info
  | TrainingRecord.wlk w => w.show_training_info

/-- The demonstration fixture `('SWM', [720, 1, 80, 25, 40])`. -/
def swmExample : Swimming := ⟨⟨720, 1, 80⟩, 25, 40⟩

/-- A `Swimming` record differing from `swmExample` only in `action`. -/
def swmAlt : Swimming := ⟨⟨721, 1, 80⟩, 25, 40⟩

/-- The demonstration fixture `('RUN', [15000, 1, 75])`. -/
def runExample : Running := ⟨⟨15000, 1, 75⟩⟩

/-- A low-speed `Running` record (mean speed below 20/18 km/h). -/
def runSlow : Running := ⟨⟨100, 1, 75⟩⟩

/-- The demonstration fixture `('WLK', [9000, 1, 75, 180])`. -/
def wlkExample : SportsWalking := ⟨⟨9000, 1, 75⟩, 180⟩

/-- The reference-rendered summary of `swmExample`. -/
def swmMsg : String :=
  "Тип тренировки: Swimming; Длительность: 1.000 ч.; Дистанция: 0.994 км; Ср. скорость: 1.000 км/ч; Потрачено ккал: 336.000."

/-- The reference-rendered summary of `runExample`. -/
def runMsg : String :=
  "Тип тренировки: Running; Длительность: 1.000 ч.; Дистанция: 9.750 км; Ср. скорость: 9.750 км/ч; Потрачено ккал: 699.750."

/-- The reference-rendered summary of `wlkExample`. -/
def wlkMsg : String :=
  "Тип тренировки: SportsWalking; Длительность: 1.000 ч.; Дистанция: 5.850 км; Ср. скорость: 5.850 км/ч; Потрачено ккал: 157.500."

/-- A distance field reading `1.000`. -/
def patDist1000 : String := "Дистанция: 1.000"

/-- A distance field reading `0.994`. -/
def patDist0994 : String := "Дистанция: 0.994"

/-- A speed field reading `1.000`. -/
def patSpeed1000 : String := "Ср. скорость: 1.000"

/-- A calories field reading `336.000`. -/
def patCal336 : String := "Потрачено ккал: 336.000"

/-- A distance field reading `9.750`. -/
def patDist9750 : String := "Дистанция: 9.750"

/-- A speed field reading `9.750`. -/
def patSpeed9750 : String := "Ср. скорость: 9.750"

/-- A calories field reading `699.750`. -/
def patCal699750 : String := "Потрачено ккал: 699.750"

/-- A distance field reading `5.850`. -/
def patDist5850 : String := "Дистанция: 5.850"

/-- A speed field reading `5.850`. -/
def patSpeed5850 : String := "Ср. скорость: 5.850"

/-- A calories field reading `157.500`. -/
def patCal157500 : String := "Потрачено ккал: 157.500"

/-- Reduces `format3` to `format3Int` once the rounded value is known. -/
theorem format3_eq_of (x : ℚ) (n : ℤ) (h : round (x * 1000) = n) :
    format3 x = format3Int n := by
  unfold format3
  rw [h]

/-- `1` renders as `1.000`. -/
theorem fmt_one : format3 (1 : ℚ) = "1.000" := by
  rw [format3_eq_of 1 1000 (by rw [round_eq]; norm_num)]
  decide

/-- `0.9936` renders as `0.994`. -/
theorem fmt_0_9936 : format3 (0.9936 : ℚ) = "0.994" := by
  rw [format3_eq_of 0.9936 994 (by rw [round_eq]; norm_num)]
  decide

/-- `336` renders as `336.000`. -/
theorem fmt_336 : format3 (336 : ℚ) = "336.000" := by
  rw [format3_eq_of 336 336000 (by rw [round_eq]; norm_num)]
  decide

/-- `9.75` renders as `9.750`. -/
theorem fmt_9_75 : format3 (9.75 : ℚ) = "9.750" := by
  rw [format3_eq_of 9.75 9750 (by rw [round_eq]; norm_num)]
  decide

/-- `699.75` renders as `699.750`. -/
theorem fmt_699_75 : format3 (699.75 : ℚ) = "699.750" := by
  rw [format3_eq_of 699.75 699750 (by rw [round_eq]; norm_num)]
  decide

/-- `5.85` renders as `5.850`. -/
theorem fmt_5_85 : format3 (5.85 : ℚ) = "5.850" := by
  rw [format3_eq_of 5.85 5850 (by rw [round_eq]; norm_num)]
  decide

/-- `157.5` renders as `157.500`. -/
theorem fmt_157_5 : format3 (157.5 : ℚ) = "157.500" := by
  rw [format3_eq_of 157.5 157500 (by rw [round_eq]; norm_num)]
  decide

/-- `swmExample` has duration 1. -/
theorem swm_duration_val : swmExample.duration = 1 := rfl

/-- `swmExample.get_distance() = 720 * 1.38 / 1000 = 0.9936`. -/
theorem swm_dist_val : swmExample.get_distance = 0.9936 := by
  norm_num [swmExample, Swimming.get_distance, Swimming.LEN_STEP, M_IN_KM]

/-- `swmExample.get_mean_speed() = (25 * 40 / 1000) / 1 = 1`. -/
theorem swm_speed_val : swmExample.get_mean_speed = 1 := by
  norm_num [swmExample, Swimming.get_mean_speed, M_IN_KM]

/-- `swmExample.get_spent_calories() = (1 + 1.1) * 2 * 80 = 336`. -/
theorem swm_cal_val : swmExample.get_spent_calories = 336 := by
  simp only [Swimming.get_spent_calories, swm_speed_val]
  norm_num [Swimming.K1, Swimming.K2, swmExample]

/-- The rendered summary of `swmExample` is exactly `swmMsg`. -/
theorem swm_message_val :
    (Swimming.show_training_info swmExample).get_message = swmMsg := by
  simp only [Swimming.show_training_info, InfoMessage.get_message,
    swm_duration_val, swm_dist_val, swm_speed_val, swm_cal_val,
    fmt_one, fmt_0_9936, fmt_336]
  decide

/-- `runExample` has duration 1. -/
theorem run_duration_val : runExample.duration = 1 := rfl

/-- `runExample.get_distance() = 15000 * 0.65 / 1000 = 9.75`. -/
theorem run_dist_val : runExample.get_distance = 9.75 := by
  norm_num [runExample, Running.get_distance, Training.get_distance,
    Training.LEN_STEP, M_IN_KM]

/-- `runExample.get_mean_speed() = 9.75 / 1 = 9.75`. -/
theorem run_speed_val : runExample.get_mean_speed = 9.75 := by
  norm_num [runExample, Running.get_mean_speed, Training.get_mean_speed,
    Training.get_distance, Training.LEN_STEP, M_IN_KM]

/-- `runExample.get_spent_calories() = (18 * 9.75 - 20) * 75 / 1000 * 60
= 699.75`. -/
theorem run_cal_val : runExample.get_spent_calories = 699.75 := by
  simp only [Running.get_spent_calories, run_speed_val]
  norm_num [Running.K1, Running.K2, Running.hours_to_minutes,
    Training.hours_to_minutes, MIN_IN_HOUR, M_IN_KM, runExample]

/-- The rendered summary of `runExample` is exactly `runMsg`. -/
theorem run_message_val :
    (Running.show_training_info runExample).get_message = runMsg := by
  simp only [Running.show_training_info, InfoMessage.get_message,
    run_duration_val, run_dist_val, run_speed_val, run_cal_val,
    fmt_one, fmt_9_75, fmt_699_75]
  decide

/-- `wlkExample` has duration 1. -/
theorem wlk_duration_val : wlkExample.duration = 1 := rfl

/-- `wlkExample.get_distance() = 9000 * 0.65 / 1000 = 5.85`. -/
theorem wlk_dist_val : wlkExample.get_distance = 5.85 := by
  norm_num [wlkExample, SportsWalking.get_distance, Training.get_distance,
    Training.LEN_STEP, M_IN_KM]

/-- `wlkExample.get_mean_speed() = 5.85 / 1 = 5.85`. -/
theorem wlk_speed_val : wlkExample.get_mean_speed = 5.85 := by
  norm_num [wlkExample, SportsWalking.get_mean_speed, Training.get_mean_speed,
    Training.get_distance, Training.LEN_STEP, M_IN_KM]

/-- The floor division in `wlkExample`'s calorie formula yields 0. -/
theorem wlk_floordiv_val :
    floordiv (wlkExample.get_mean_speed ^ 2) wlkExample.height = 0 := by
  rw [wlk_speed_val]
  norm_num [floordiv, wlkExample]

/-- `wlkExample.get_spent_calories() = (0.035 * 75 + 0) * 60 = 157.5`. -/
theorem wlk_cal_val : wlkExample.get_spent_calories = 157.5 := by
  simp only [SportsWalking.get_spent_calories, wlk_floordiv_val]
  norm_num [SportsWalking.K1, SportsWalking.hours_to_minutes,
    Training.hours_to_minutes, MIN_IN_HOUR, wlkExample]

/-- The rendered summary of `wlkExample` is exactly `wlkMsg`. -/
theorem wlk_message_val :
    (SportsWalking.show_training_info wlkExample).get_message = wlkMsg := by
  simp only [SportsWalking.show_training_info, InfoMessage.get_message,
    wlk_duration_val, wlk_dist_val, wlk_speed_val, wlk_cal_val,
    fmt_one, fmt_5_85, fmt_157_5]
  decide

/-- Unrecognized codes make `read_package` fail with the unknown-code
error. -/
theorem read_package_unknown (code : String) (data : List ℚ)
    (h1 : code ≠ SWM) (h2 : code ≠ RUN) (h3 : code ≠ WLK) :
    read_package code data = Except.error BuildError.unknownWorkoutCode := by
  simp only [read_package, if_neg h1, if_neg h2, if_neg h3]

/-- Code SWM with a value count other than 5 fails with the arity error. -/
theorem read_package_swm_arity (data : List ℚ) (h : data.length ≠ 5) :
    read_package SWM data = Except.error BuildError.arityMismatch := by
  rcases data with _ | ⟨a, _ | ⟨b, _ | ⟨c, _ | ⟨d, _ | ⟨e, _ | ⟨f, rest⟩⟩⟩⟩⟩⟩ <;>
    simp only [read_package, if_pos rfl] <;>
    first
      | rfl
      | exact absurd rfl h

/-- Code RUN with a value count other than 3 fails with the arity error. -/
theorem read_package_run_arity (data : List ℚ) (h : data.length ≠ 3) :
    read_package RUN data = Except.error BuildError.arityMismatch := by
  rcases data with _ | ⟨a, _ | ⟨b, _ | ⟨c, _ | ⟨d, rest⟩⟩⟩⟩ <;>
    simp only [read_package] <;>
    first
      | rfl
      | exact absurd rfl h

/-- Code WLK with a value count other than 4 fails with the arity error. -/
theorem read_package_wlk_arity (data : List ℚ) (h : data.length ≠ 4) :
    read_package WLK data = Except.error BuildError.arityMismatch := by
  rcases data with _ | ⟨a, _ | ⟨b, _ | ⟨c, _ | ⟨d, _ | ⟨e, rest⟩⟩⟩⟩⟩ <;>
    simp only [read_package] <;>
    first
      | rfl
      | exact absurd rfl h

/-- Claim C1: for every SportsWalking (RaceWalking) record with positive
height, weight and duration, `get_spent_calories()` equals
`(0.035 * weight + floor(mean_speed^2 / height) * 0.029 * weight) *
hours_to_minutes()`, where the inner division is floor division
truncating toward negative infinity (`Int.floor`), not ordinary real
division. -/
theorem C1_sports_walking_calories (t : SportsWalking)
    (h1 : 0 < t.height) (h2 : 0 < t.weight) (h3 : 0 < t.duration) :
    t.get_spent_calories =
      (0.035 * t.weight +
          (Int.floor (t.get_mean_speed ^ 2 / t.height) : ℚ) * 0.029 * t.weight)
        * t.hours_to_minutes := by
  simp only [SportsWalking.get_spent_calories, floordiv,
    SportsWalking.K1, SportsWalking.K2]
  ring

/-- Witness for C1 at the demonstration fixture `[9000, 1, 75, 180]`. -/
theorem C1_sports_walking_calories_witness :
    0 < wlkExample.height ∧ 0 < wlkExample.weight ∧ 0 < wlkExample.duration ∧
    wlkExample.get_spent_calories =
      (0.035 * wlkExample.weight +
          (Int.floor (wlkExample.get_mean_speed ^ 2 / wlkExample.height) : ℚ)
            * 0.029 * wlkExample.weight)
        * wlkExample.hours_to_minutes :=
  ⟨by norm_num [wlkExample], by norm_num [wlkExample], by norm_num [wlkExample],
    C1_sports_walking_calories wlkExample (by norm_num [wlkExample])
      (by norm_num [wlkExample]) (by norm_num [wlkExample])⟩

/-- Claim C2, as stated, is false: the rendered summary of
`build("SWM", [720, 1, 80, 25, 40])` does not contain a distance field
`1.000`; the distance 0.9936 renders as `0.994`. -/
theorem C2_swimming_counterexample :
    strContains ((Swimming.show_training_info swmExample).get_message)
        patDist1000 = false ∧
    format3 swmExample.get_distance = "0.994" := by
  constructor
  · rw [swm_message_val]
    decide
  · rw [swm_dist_val, fmt_0_9936]

/-- Claim C2 (amended): `build("SWM", [720, 1, 80, 25, 40])` yields the
Swimming record with distance 0.9936 km, mean speed 1 km/h and calories
336; its rendered summary contains the distance field formatted as
`0.994` (not `1.000`), the speed field as `1.000` and the calories field
as `336.000`. -/
theorem C2_swimming_scenario :
    read_package SWM [720, 1, 80, 25, 40] =
      Except.ok (TrainingRecord.swm swmExample) ∧
    swmExample.get_distance = 0.9936 ∧
    swmExample.get_mean_speed = 1 ∧
    swmExample.get_spent_calories = 336 ∧
    (Swimming.show_training_info swmExample).get_message = swmMsg ∧
    strContains swmMsg patDist0994 = true ∧
    strContains swmMsg patSpeed1000 = true ∧
    strContains swmMsg patCal336 = true :=
  ⟨rfl, swm_dist_val, swm_speed_val, swm_cal_val, swm_message_val,
    by decide, by decide, by decide⟩

/-- Claim C3: `build("WLK", [9000, 1, 75, 180])` yields the SportsWalking
record with distance 5.85 km, mean speed 5.85 km/h, floor term 0 and
calories 157.5; its rendered summary formats these as `5.850`, `5.850`
and `157.500`. -/
theorem C3_walking_scenario :
    read_package WLK [9000, 1, 75, 180] =
      Except.ok (TrainingRecord.wlk wlkExample) ∧
    wlkExample.get_distance = 5.85 ∧
    wlkExample.get_mean_speed = 5.85 ∧
    floordiv (wlkExample.get_mean_speed ^ 2) wlkExample.height = 0 ∧
    wlkExample.get_spent_calories = 157.5 ∧
    (SportsWalking.show_training_info wlkExample).get_message = wlkMsg ∧
    strContains wlkMsg patDist5850 = true ∧
    strContains wlkMsg patSpeed5850 = true ∧
    strContains wlkMsg patCal157500 = true :=
  ⟨rfl, wlk_dist_val, wlk_speed_val, wlk_floordiv_val, wlk_cal_val,
    wlk_message_val, by decide, by decide, by decide⟩

/-- Claim C4: `build("RUN", [15000, 1, 75])` yields the Running record
with distance 9.75 km, mean speed 9.75 km/h and calories 699.75; its
rendered summary formats these as `9.750`, `9.750` and `699.750`. -/
theorem C4_running_scenario :
    read_package RUN [15000, 1, 75] =
      Except.ok (TrainingRecord.run runExample) ∧
    runExample.get_distance = 9.75 ∧
    runExample.get_mean_speed = 9.75 ∧
    runExample.get_spent_calories = 699.75 ∧
    (Running.show_training_info runExample).get_message = runMsg ∧
    strContains runMsg patDist9750 = true ∧
    strContains runMsg patSpeed9750 = true ∧
    strContains runMsg patCal699750 = true :=
  ⟨rfl, run_dist_val, run_speed_val, run_cal_val, run_message_val,
    by decide, by decide, by decide⟩

/-- Claim C5: two Swimming records that differ only in `action` (equal
duration, weight, pool length and pool count, positive duration) have
identical mean speed and identical calories, but different distances
whenever their `action` values differ. -/
theorem C5_swimming_ignores_action (s1 s2 : Swimming)
    (hdur : s1.duration = s2.duration) (hw : s1.weight = s2.weight)
    (hl : s1.length_pool = s2.length_pool) (hc : s1.count_pool = s2.count_pool)
    (hpos : 0 < s1.duration) :
    s1.get_mean_speed = s2.get_mean_speed ∧
    s1.get_spent_calories = s2.get_spent_calories ∧
    (s1.action ≠ s2.action → s1.get_distance ≠ s2.get_distance) := by
  have hs : s1.get_mean_speed = s2.get_mean_speed := by
    unfold Swimming.get_mean_speed
    rw [hl, hc, hdur]
  refine ⟨hs, ?_, ?_⟩
  · unfold Swimming.get_spent_calories
    rw [hs, hw]
  · intro hne heq
    apply hne
    unfold Swimming.get_distance at heq
    field_simp [Swimming.LEN_STEP, M_IN_KM] at heq
    exact heq.resolve_right (by norm_num)

/-- Witness for C5: `swmExample` and `swmAlt` differ only in `action`. -/
theorem C5_swimming_ignores_action_witness :
    swmExample.duration = swmAlt.duration ∧
    swmExample.weight = swmAlt.weight ∧
    swmExample.length_pool = swmAlt.length_pool ∧
    swmExample.count_pool = swmAlt.count_pool ∧
    0 < swmExample.duration ∧
    (swmExample.get_mean_speed = swmAlt.get_mean_speed ∧
      swmExample.get_spent_calories = swmAlt.get_spent_calories ∧
      (swmExample.action ≠ swmAlt.action →
        swmExample.get_distance ≠ swmAlt.get_distance)) :=
  ⟨rfl, rfl, rfl, rfl, by norm_num [swmExample],
    C5_swimming_ignores_action swmExample swmAlt rfl rfl rfl rfl
      (by norm_num [swmExample])⟩

/-- Claim C6: for every Running and every SportsWalking record with
positive duration, `get_mean_speed()` equals
`get_distance() / duration` exactly. -/
theorem C6_mean_speed_is_distance_over_duration
    (r : Running) (t : SportsWalking)
    (hr : 0 < r.duration) (ht : 0 < t.duration) :
    r.get_mean_speed = r.get_distance / r.duration ∧
    t.get_mean_speed = t.get_distance / t.duration :=
  ⟨rfl, rfl⟩

/-- Witness for C6 at the demonstration fixtures. -/
theorem C6_mean_speed_is_distance_over_duration_witness :
    0 < runExample.duration ∧ 0 < wlkExample.duration ∧
    (runExample.get_mean_speed = runExample.get_distance / runExample.duration ∧
      wlkExample.get_mean_speed = wlkExample.get_distance / wlkExample.duration) :=
  ⟨by norm_num [runExample], by norm_num [wlkExample],
    C6_mean_speed_is_distance_over_duration runExample wlkExample
      (by norm_num [runExample]) (by norm_num [wlkExample])⟩

/-- Claim C7: `read_package` fails with the unknown-code error on every
unrecognized code, fails with the arity error on a recognized code with
the wrong number of values (5 for SWM, 3 for RUN, 4 for WLK), and with a
recognized code and the correct count returns the record with the
positional values bound to the fields in order. -/
theorem C7_read_package_dispatch (code : String) (data : List ℚ) :
    (code ≠ SWM → code ≠ RUN → code ≠ WLK →
      read_package code data = Except.error BuildError.unknownWorkoutCode) ∧
    (data.length ≠ 5 →
      read_package SWM data = Except.error BuildError.arityMismatch) ∧
    (data.length ≠ 3 →
      read_package RUN data = Except.error BuildError.arityMismatch) ∧
    (data.length ≠ 4 →
      read_package WLK data = Except.error BuildError.arityMismatch) ∧
    (∀ a d w lp cp, read_package SWM [a, d, w, lp, cp] =
      Except.ok (TrainingRecord.swm ⟨⟨a, d, w⟩, lp, cp⟩)) ∧
    (∀ a d w, read_package RUN [a, d, w] =
      Except.ok (TrainingRecord.run ⟨⟨a, d, w⟩⟩)) ∧
    (∀ a d w h, read_package WLK [a, d, w, h] =
      Except.ok (TrainingRecord.wlk ⟨⟨a, d, w⟩, h⟩)) :=
  ⟨fun h1 h2 h3 => read_package_unknown code data h1 h2 h3,
    fun h => read_package_swm_arity data h,
    fun h => read_package_run_arity data h,
    fun h => read_package_wlk_arity data h,
    fun _ _ _ _ _ => rfl,
    fun _ _ _ => rfl,
    fun _ _ _ _ => rfl⟩

/-- Witness for C7: `build("XYZ", [1, 2, 3])` is an unknown code and
`build("RUN", [1, 2])` is an arity mismatch. -/
theorem C7_read_package_dispatch_witness :
    read_package XYZ [1, 2, 3] = Except.error BuildError.unknownWorkoutCode ∧
    read_package RUN [1, 2] = Except.error BuildError.arityMismatch :=
  ⟨(C7_read_package_dispatch XYZ [1, 2, 3]).1 (by decide) (by decide)
      (by decide),
    (C7_read_package_dispatch RUN [1, 2]).2.2.1 (by decide)⟩

/-- Claim C8: the base-capability calorie computation never returns a
number: on every base `Training` value it is the `NotImplementedError`
outcome, never a success value. -/
theorem C8_base_calories_never_numeric (t : Training) :
    Training.get_spent_calories t = Except.error notImplementedMsg ∧
    (Training.get_spent_calories t).isOk = false :=
  ⟨rfl, rfl⟩

/-- Claim C9: for every built record, `get_distance()` is non-negative
whenever `action` is non-negative. -/
theorem C9_distance_nonneg (t : TrainingRecord) (h : 0 ≤ t.action) :
    0 ≤ t.get_distance := by
  cases t with
  | swm s =>
      exact div_nonneg
        (mul_nonneg h (by norm_num [Swimming.LEN_STEP]))
        (by norm_num [M_IN_KM])
  | run r =>
      exact div_nonneg
        (mul_nonneg h (by norm_num [Training.LEN_STEP]))
        (by norm_num [M_IN_KM])
  | wlk w =>
      exact div_nonneg
        (mul_nonneg h (by norm_num [Training.LEN_STEP]))
        (by norm_num [M_IN_KM])

/-- Witness for C9 at the running fixture. -/
theorem C9_distance_nonneg_witness :
    0 ≤ (TrainingRecord.run runExample).action ∧
    0 ≤ (TrainingRecord.run runExample).get_distance :=
  ⟨by norm_num [TrainingRecord.action, runExample],
    C9_distance_nonneg (TrainingRecord.run runExample)
      (by norm_num [TrainingRecord.action, runExample])⟩

/-- Claim C10: there is a Running record with positive action, duration
and weight whose `get_spent_calories()` is strictly negative (any mean
speed below 20/18 km/h), because the formula subtracts 20 before scaling
by weight and minutes. -/
theorem C10_running_negative_calories :
    ∃ r : Running, 0 < r.action ∧ 0 < r.duration ∧ 0 < r.weight ∧
      r.get_spent_calories < 0 := by
  refine ⟨runSlow, by norm_num [runSlow], by norm_num [runSlow],
    by norm_num [runSlow], ?_⟩
  norm_num [runSlow, Running.get_spent_calories, Running.get_mean_speed,
    Running.get_distance, Running.hours_to_minutes, Training.get_mean_speed,
    Training.get_distance, Training.hours_to_minutes, Training.LEN_STEP,
    Running.K1, Running.K2, M_IN_KM, MIN_IN_HOUR]

end Fitness
